import Mathlib

/-!
Shallow embedding of the device-state reconciliation engine of the
gtk-status-bar repository (src/main.rs, function monitor_dbus together with
its helper functions compute_bluetooth_display_string,
process_bluetooth_battery_percentage and process_bluetooth_battery_interface).

Modelling conventions:
* D-Bus values are a closed tagged union restricted to the shapes the code
  inspects; dictionaries are association lists keyed by strings, since every
  lookup the code performs uses a string key.  Double-precision values are
  restricted to integral payloads (modelled as Int); every percentage any
  claim mentions is integral, and the Rust formatting of an integral double
  with zero decimals prints exactly that integer.
* The HashMap of Bluetooth devices is an association list with first-match
  lookup and replace; the keys produced by the loop are unique, and the
  iteration order of the summary string is representation order, matching
  the specification, which leaves the order unspecified.
* Log statements have no effect on state or output and are not modelled.
* The dispatch loop body is the function dispatchStep: one message in, the
  updated registry plus the list of strings pushed to the output channels.
-/

inductive DBusValue where
  | str (s : String)
  | u8 (n : Nat)
  | u32 (n : Nat)
  | f64 (n : Int)
  | objectPath (p : String)
  | dict (entries : List (String × DBusValue))
  | array (elems : List DBusValue)
  | other

/-- Lookup in a D-Bus dictionary (first entry with the given string key),
modelling zvariant Dict::get with a string key. -/
def dictGet : List (String × DBusValue) → String → Option DBusValue
  | [], _ => none
  | (k, v) :: rest, key => if k = key then some v else dictGet rest key

/-- u8::try_from on a zvariant Value: succeeds only on a byte value. -/
def u8TryFrom : DBusValue → Option Nat
  | .u8 n => some n
  | _ => none

/-- f64::try_from on a zvariant Value: succeeds only on a double value. -/
def f64TryFrom : DBusValue → Option Int
  | .f64 n => some n
  | _ => none

/-- src/main.rs process_bluetooth_battery_percentage: convert to u8, logging
only on failure. -/
def process_bluetooth_battery_percentage (value : DBusValue) : Option Nat :=
  u8TryFrom value

/-- src/main.rs process_bluetooth_battery_interface: the interface value must
be a dictionary carrying a Percentage property convertible to u8. -/
def process_bluetooth_battery_interface (battery_interface_value : DBusValue) : Option Nat :=
  match battery_interface_value with
  | .dict battery_info =>
      match dictGet battery_info "Percentage" with
      | some percentage_value => process_bluetooth_battery_percentage percentage_value
      | none => none
  | _ => none

/-- src/main.rs struct BluetoothDevice. -/
structure BluetoothDevice where
  device_path : String
  has_battery : Bool
  has_media : Bool
  battery_percentage : Option Nat
  device_name : Option String
  deriving Repr, DecidableEq

/-- The bluetooth_devices HashMap, as an association list with unique keys. -/
abbrev Registry := List (String × BluetoothDevice)

/-- HashMap::get, first entry with the given key. -/
def regGet : Registry → String → Option BluetoothDevice
  | [], _ => none
  | (q, d) :: rest, p => if q = p then some d else regGet rest p

/-- HashMap::insert or get_mut followed by assignment: replace the binding of
the key when present, otherwise append a new binding. -/
def regSet : Registry → String → BluetoothDevice → Registry
  | [], p, d => [(p, d)]
  | (q, e) :: rest, p, d => if q = p then (q, d) :: rest else (q, e) :: regSet rest p d

/-- HashMap::remove, dropping the first binding of the key. -/
def regRemove : Registry → String → Registry
  | [], _ => []
  | (q, e) :: rest, p => if q = p then rest else (q, e) :: regRemove rest p

/-- One summary token of compute_bluetooth_display_string: present exactly
when the device has a battery percentage; first character of the name with
fallback letter D, then the percentage. -/
def deviceToken (device : BluetoothDevice) : Option String :=
  device.battery_percentage.map (fun percentage =>
    String.mk [(device.device_name.bind (fun name => name.toList.head?)).getD 'D']
      ++ toString percentage)

/-- The token list of compute_bluetooth_display_string, in registry order. -/
def bluetoothTokens (bluetooth_devices : Registry) : List String :=
  bluetooth_devices.filterMap (fun e => deviceToken e.snd)

/-- src/main.rs compute_bluetooth_display_string. -/
def compute_bluetooth_display_string (bluetooth_devices : Registry) : String :=
  if (bluetoothTokens bluetooth_devices).isEmpty then "No BT"
  else String.intercalate " " (bluetoothTokens bluetooth_devices)

/-- A value pushed to one of the two output channels. -/
inductive Emission where
  | battery (text : String)
  | bluetooth (text : String)
  deriving Repr, DecidableEq

/-- The battery text of process_battery_percentage: fixed battery glyph,
space, integer percentage, percent sign. -/
def formatBatteryText (percentage : Int) : String :=
  "🔋 " ++ toString percentage ++ "%"

/-- The last value shown on the battery channel after a list of emissions,
starting from a currently displayed value. -/
def lastBatteryText (current : Option String) (emissions : List Emission) : Option String :=
  emissions.foldl
    (fun acc e => match e with | .battery t => some t | .bluetooth _ => acc) current

/-- A message of the live stream as the loop reads it: the three classifying
header fields (each possibly absent) and the body, where none models a body
that fails to deserialize as a structure and some fields gives the fields of
the deserialized structure. -/
structure RawMessage where
  path : Option String
  interface : Option String
  member : Option String
  body : Option (List DBusValue)

/-- Compute the display string for the updated registry and push it, as the
code does after every battery add, battery change and interface removal. -/
def emitBT (reg : Registry) : Registry × List Emission :=
  (reg, [Emission.bluetooth (compute_bluetooth_display_string reg)])

/-- Name extraction of the InterfacesAdded Device1 branch: only a
string-typed Name property yields a name. -/
def parseDevice1Name (device1 : List (String × DBusValue)) : Option String :=
  match dictGet device1 "Name" with
  | some (.str name) => some name
  | _ => none

/-- InterfacesAdded, Device1 branch: when the interface map carries Device1
as a dictionary and the first body field is an object path, assign the parsed
name to the existing record (even when the parse produced no name) or insert
a fresh record carrying only the name. -/
def device1Step (reg : Registry) (object_path_value : DBusValue)
    (entries : List (String × DBusValue)) : Registry :=
  match dictGet entries "org.bluez.Device1" with
  | some (.dict device1) =>
      match object_path_value with
      | .objectPath object_path =>
          match regGet reg object_path with
          | some device =>
              regSet reg object_path { device with device_name := parseDevice1Name device1 }
          | none =>
              regSet reg object_path
                ⟨object_path, false, false, none, parseDevice1Name device1⟩
      | _ => reg
  | _ => reg

/-- InterfacesAdded, MediaControl1 branch: when the interface map carries
MediaControl1 (any value shape), set has_media on the existing record or
insert a fresh media-only record. -/
def mediaAddedStep (reg : Registry) (object_path_value : DBusValue)
    (entries : List (String × DBusValue)) : Registry :=
  match dictGet entries "org.bluez.MediaControl1" with
  | some _ =>
      match object_path_value with
      | .objectPath object_path =>
          match regGet reg object_path with
          | some device => regSet reg object_path { device with has_media := true }
          | none => regSet reg object_path ⟨object_path, false, true, none, none⟩
      | _ => reg
  | none => reg

/-- InterfacesAdded, Battery1 branch: when the interface map carries Battery1,
set has_battery and assign the processed percentage (possibly none) on the
existing record, or insert a fresh battery record; then derive and push the
Bluetooth display string.  With no object path, nothing changes and nothing
is pushed. -/
def batteryAddedReg (reg : Registry) (object_path : String)
    (battery_interface_value : DBusValue) : Registry :=
  match regGet reg object_path with
  | some device =>
      regSet reg object_path
        { device with
            has_battery := true
            battery_percentage :=
              process_bluetooth_battery_interface battery_interface_value }
  | none =>
      regSet reg object_path
        ⟨object_path, true, false,
          process_bluetooth_battery_interface battery_interface_value, none⟩

/-- The Battery1 branch of InterfacesAdded with its guards and the push of
the derived display string; with no object path, nothing changes and nothing
is pushed. -/
def batteryAddedStep (reg : Registry) (object_path_value : DBusValue)
    (entries : List (String × DBusValue)) : Registry × List Emission :=
  match dictGet entries "org.bluez.Battery1" with
  | none => (reg, [])
  | some battery_interface_value =>
      match object_path_value with
      | .objectPath object_path =>
          emitBT (batteryAddedReg reg object_path battery_interface_value)
      | _ => (reg, [])

/-- The InterfacesAdded handler: the body must be a two-field structure whose
second field is a dictionary; then the Device1, MediaControl1 and Battery1
branches run in that order. -/
def handleInterfacesAdded (reg : Registry) (body : Option (List DBusValue)) :
    Registry × List Emission :=
  match body with
  | some [object_path_value, .dict entries] =>
      batteryAddedStep
        (mediaAddedStep (device1Step reg object_path_value entries) object_path_value entries)
        object_path_value entries
  | _ => (reg, [])

/-- PropertiesChanged, UPower.Device branch: the changed properties must be a
dictionary; a Percentage entry convertible to f64 produces a battery text
emission; the registry is never touched. -/
def upowerChangedStep (changed_properties_val : DBusValue) : List Emission :=
  match changed_properties_val with
  | .dict changed_properties =>
      match dictGet changed_properties "Percentage" with
      | some percentage_value =>
          match f64TryFrom percentage_value with
          | some percentage => [Emission.battery (formatBatteryText percentage)]
          | none => []
      | none => []
  | _ => []

/-- PropertiesChanged, Battery1 branch: the changed properties must be a
dictionary; the processed percentage (possibly none) is assigned on the
existing record, or a fresh battery record is inserted defensively at the
header path; then the Bluetooth display string is derived and pushed. -/
def batteryChangedReg (reg : Registry) (path : String)
    (changed_properties_val : DBusValue) : Registry :=
  match regGet reg path with
  | some device =>
      regSet reg path
        { device with
            battery_percentage :=
              process_bluetooth_battery_interface changed_properties_val }
  | none =>
      regSet reg path
        ⟨path, true, false,
          process_bluetooth_battery_interface changed_properties_val, none⟩

/-- The Battery1 branch of PropertiesChanged with its dictionary guard and
the push of the derived display string. -/
def batteryChangedStep (reg : Registry) (path : String)
    (changed_properties_val : DBusValue) : Registry × List Emission :=
  match changed_properties_val with
  | .dict _ => emitBT (batteryChangedReg reg path changed_properties_val)
  | _ => (reg, [])

/-- PropertiesChanged, MediaControl1 branch: set has_media on the existing
record or insert a fresh media record at the header path; nothing is pushed. -/
def mediaChangedStep (reg : Registry) (path : String) : Registry :=
  match regGet reg path with
  | some device => regSet reg path { device with has_media := true }
  | none => regSet reg path ⟨path, false, true, none, none⟩

/-- The PropertiesChanged handler: the body must be a three-field structure
whose first field is a string interface name; dispatch on that name, ignoring
unknown names. -/
def handlePropertiesChanged (reg : Registry) (path : String)
    (body : Option (List DBusValue)) : Registry × List Emission :=
  match body with
  | some [.str interface_names, changed_properties_val, _] =>
      match interface_names with
      | "org.freedesktop.UPower.Device" => (reg, upowerChangedStep changed_properties_val)
      | "org.bluez.Battery1" => batteryChangedStep reg path changed_properties_val
      | "org.bluez.MediaControl1" => (mediaChangedStep reg path, [])
      | _ => (reg, [])
  | _ => (reg, [])

/-- One removed-interface clear with garbage collection: apply the clear to
the existing record, then remove the record when it has neither media nor
battery nor name left. -/
def clearGC (reg : Registry) (object_path : String)
    (clear : BluetoothDevice → BluetoothDevice) : Registry :=
  match regGet reg object_path with
  | some device =>
      if (!(clear device).has_media && !(clear device).has_battery
          && (clear device).device_name.isNone) then
        regRemove (regSet reg object_path (clear device)) object_path
      else regSet reg object_path (clear device)
  | none => reg

/-- One element of the removed-interfaces array: string names dispatch to the
per-interface clears; the UPower name and unknown names change nothing. -/
def removeIfaceStep (reg : Registry) (object_path : String) (iface : DBusValue) : Registry :=
  match iface with
  | .str interface_name =>
      match interface_name with
      | "org.bluez.Battery1" =>
          clearGC reg object_path
            (fun d => { d with has_battery := false, battery_percentage := none })
      | "org.bluez.MediaControl1" =>
          clearGC reg object_path (fun d => { d with has_media := false })
      | "org.bluez.Device1" =>
          clearGC reg object_path (fun d => { d with device_name := none })
      | _ => reg
  | _ => reg

/-- The InterfacesRemoved handler: the body must be a two-field structure of
an object path and an array; apply every clear, then always derive and push
the Bluetooth display string. -/
def removedReg (reg : Registry) (object_path : String)
    (interfaces : List DBusValue) : Registry :=
  interfaces.foldl (fun r iface => removeIfaceStep r object_path iface) reg

/-- The InterfacesRemoved handler with its parse guards: apply every clear,
then always derive and push the Bluetooth display string. -/
def handleInterfacesRemoved (reg : Registry) (body : Option (List DBusValue)) :
    Registry × List Emission :=
  match body with
  | some [.objectPath object_path, .array interfaces] =>
      emitBT (removedReg reg object_path interfaces)
  | _ => (reg, [])

/-- One iteration of the dispatch loop of monitor_dbus: discard the message
when a classifying header field is absent, otherwise dispatch on the
interface and member strings; unrecognized pairs are discarded. -/
def dispatchStep (reg : Registry) (msg : RawMessage) : Registry × List Emission :=
  match msg.path, msg.member, msg.interface with
  | some path, some member, some interfaceName =>
      match interfaceName, member with
      | "org.freedesktop.DBus.ObjectManager", "InterfacesAdded" =>
          handleInterfacesAdded reg msg.body
      | "org.freedesktop.DBus.Properties", "PropertiesChanged" =>
          handlePropertiesChanged reg path msg.body
      | "org.freedesktop.DBus.ObjectManager", "InterfacesRemoved" =>
          handleInterfacesRemoved reg msg.body
      | _, _ => (reg, [])
  | _, _, _ => (reg, [])

/-- Fold the dispatch loop over a list of messages, keeping the registry. -/
def applyMsgs (reg : Registry) (msgs : List RawMessage) : Registry :=
  msgs.foldl (fun r m => (dispatchStep r m).fst) reg

/-- An InterfacesAdded signal as delivered by the bus. -/
def mkInterfacesAdded (headerPath objPath : String)
    (entries : List (String × DBusValue)) : RawMessage :=
  ⟨some headerPath, some "org.freedesktop.DBus.ObjectManager", some "InterfacesAdded",
    some [.objectPath objPath, .dict entries]⟩

/-- A PropertiesChanged signal as delivered by the bus. -/
def mkPropertiesChanged (path interfaceName : String)
    (changed invalidated : DBusValue) : RawMessage :=
  ⟨some path, some "org.freedesktop.DBus.Properties", some "PropertiesChanged",
    some [.str interfaceName, changed, invalidated]⟩

/-- An InterfacesRemoved signal as delivered by the bus. -/
def mkInterfacesRemoved (headerPath objPath : String)
    (interfaces : List DBusValue) : RawMessage :=
  ⟨some headerPath, some "org.freedesktop.DBus.ObjectManager", some "InterfacesRemoved",
    some [.objectPath objPath, .array interfaces]⟩

/-- The three-fact disjunction of the registry invariant. -/
def recordOK (d : BluetoothDevice) : Bool :=
  d.has_battery || d.has_media || d.device_name.isSome

/-- The registry invariant: every record carries at least one fact. -/
def registryInv (r : Registry) : Prop :=
  ∀ e ∈ r, recordOK e.snd = true

instance (r : Registry) : Decidable (registryInv r) :=
  inferInstanceAs (Decidable (∀ e ∈ r, recordOK e.snd = true))

/-- Side condition under which InterfacesAdded preserves the invariant: a
Device1 dictionary in the interface map carries a string Name. -/
def entriesNameOk (entries : List (String × DBusValue)) : Bool :=
  match dictGet entries "org.bluez.Device1" with
  | some (.dict device1) => (parseDevice1Name device1).isSome
  | _ => true

/-- The same side condition read off a message body. -/
def bodyNameOk (body : Option (List DBusValue)) : Bool :=
  match body with
  | some [_, .dict entries] => entriesNameOk entries
  | _ => true

/-- The same side condition read off a whole message: only InterfacesAdded
messages are constrained. -/
def addedDeviceNameOk (m : RawMessage) : Bool :=
  match m.interface, m.member with
  | some "org.freedesktop.DBus.ObjectManager", some "InterfacesAdded" => bodyNameOk m.body
  | _, _ => true

/-- Top-level parse guards of the dispatch loop: true exactly when the code
discards the message at one of its continue points (missing header field,
body that does not deserialize, wrong field count, or a wrong-typed
top-level field of a recognized signal). -/
def malformedTopLevel (m : RawMessage) : Bool :=
  match m.path, m.member, m.interface with
  | some _, some member, some interfaceName =>
      match interfaceName, member with
      | "org.freedesktop.DBus.ObjectManager", "InterfacesAdded" =>
          match m.body with
          | some [.objectPath _, .dict _] => false
          | _ => true
      | "org.freedesktop.DBus.Properties", "PropertiesChanged" =>
          match m.body with
          | some [.str interface_names, changed, _] =>
              match interface_names, changed with
              | "org.freedesktop.UPower.Device", .dict _ => false
              | "org.freedesktop.UPower.Device", _ => true
              | "org.bluez.Battery1", .dict _ => false
              | "org.bluez.Battery1", _ => true
              | _, _ => false
          | some [_, _, _] => true
          | _ => true
      | "org.freedesktop.DBus.ObjectManager", "InterfacesRemoved" =>
          match m.body with
          | some [.objectPath _, .array _] => false
          | _ => true
      | _, _ => false
  | _, _, _ => true

/-- The messages on which the dispatch loop pushes a Bluetooth display
string: an InterfacesAdded whose body has an object path and an interface
dictionary containing the Battery1 interface, a PropertiesChanged on the
Bluetooth battery interface with dictionary-shaped changed properties, and
an InterfacesRemoved passing the parse guards. -/
def btEmissionTrigger (m : RawMessage) : Bool :=
  match m.path, m.member, m.interface with
  | some _, some member, some interfaceName =>
      match interfaceName, member with
      | "org.freedesktop.DBus.ObjectManager", "InterfacesAdded" =>
          match m.body with
          | some [.objectPath _, .dict entries] =>
              (dictGet entries "org.bluez.Battery1").isSome
          | _ => false
      | "org.freedesktop.DBus.Properties", "PropertiesChanged" =>
          match m.body with
          | some [.str "org.bluez.Battery1", .dict _, _] => true
          | _ => false
      | "org.freedesktop.DBus.ObjectManager", "InterfacesRemoved" =>
          match m.body with
          | some [.objectPath _, .array _] => true
          | _ => false
      | _, _ => false
  | _, _, _ => false

/-- Scenario B message: Device1 with name Pixel Buds and Battery1 with
percentage 80 added at /d1. -/
def msgScenarioB : RawMessage :=
  mkInterfacesAdded "/" "/d1"
    [("org.bluez.Device1", .dict [("Name", .str "Pixel Buds")]),
     ("org.bluez.Battery1", .dict [("Percentage", .u8 80)])]

/-- The registry after Scenario B. -/
def regScenarioB : Registry :=
  [("/d1", ⟨"/d1", true, false, some 80, some "Pixel Buds"⟩)]

/-- Scenario C message: Battery1 removed at /d1. -/
def msgScenarioC : RawMessage :=
  mkInterfacesRemoved "/" "/d1" [.str "org.bluez.Battery1"]

/-- The registry after Scenario C. -/
def regScenarioC : Registry :=
  [("/d1", ⟨"/d1", false, false, none, some "Pixel Buds"⟩)]

/-- Scenario D message: Device1 removed at /d1. -/
def msgScenarioD : RawMessage :=
  mkInterfacesRemoved "/" "/d1" [.str "org.bluez.Device1"]

/-- An InterfacesAdded carrying a Device1 dictionary with no Name property. -/
def msgDeviceNoName : RawMessage :=
  mkInterfacesAdded "/" "/d1" [("org.bluez.Device1", .dict [])]

/-- An InterfacesAdded carrying a Battery1 dictionary with no Percentage. -/
def msgBatteryNoPct : RawMessage :=
  mkInterfacesAdded "/" "/d1" [("org.bluez.Battery1", .dict [])]

/-- An InterfacesAdded carrying only a MediaControl1 interface. -/
def msgMediaOnly : RawMessage :=
  mkInterfacesAdded "/" "/d1" [("org.bluez.MediaControl1", .dict [])]

/-- An InterfacesAdded whose Battery1 interface value has the wrong shape
(a string instead of a property dictionary). -/
def msgBadBatteryShape : RawMessage :=
  mkInterfacesAdded "/" "/d1" [("org.bluez.Battery1", .str "junk")]

/-- An InterfacesAdded whose body failed to deserialize as a structure. -/
def msgNoBody : RawMessage :=
  ⟨some "/", some "org.freedesktop.DBus.ObjectManager", some "InterfacesAdded", none⟩

/-! ### Registry lemmas -/

theorem registryInv_nil : registryInv [] := by
  intro e he
  cases he

theorem registryInv_cons {q : String} {d : BluetoothDevice} {rest : Registry} :
    registryInv ((q, d) :: rest) ↔ recordOK d = true ∧ registryInv rest := by
  simp [registryInv]

theorem regGet_regSet_self (r : Registry) (p : String) (d : BluetoothDevice) :
    regGet (regSet r p d) p = some d := by
  induction r with
  | nil => simp [regSet, regGet]
  | cons e rest ih =>
      obtain ⟨q, dev⟩ := e
      by_cases h : q = p
      · simp [regSet, regGet, h]
      · simp [regSet, regGet, h, ih]

theorem registryInv_regSet {r : Registry} (p : String) {d : BluetoothDevice}
    (h : registryInv r) (hd : recordOK d = true) : registryInv (regSet r p d) := by
  induction r with
  | nil =>
      intro e he
      simp [regSet] at he
      subst he
      exact hd
  | cons ed rest ih =>
      obtain ⟨q, dev⟩ := ed
      rw [registryInv_cons] at h
      by_cases hq : q = p
      · simp only [regSet, if_pos hq]
        exact registryInv_cons.mpr ⟨hd, h.2⟩
      · simp only [regSet, if_neg hq]
        exact registryInv_cons.mpr ⟨h.1, ih h.2⟩

theorem registryInv_regRemove {r : Registry} (p : String) (h : registryInv r) :
    registryInv (regRemove r p) := by
  induction r with
  | nil =>
      intro e he
      cases he
  | cons ed rest ih =>
      obtain ⟨q, dev⟩ := ed
      rw [registryInv_cons] at h
      by_cases hq : q = p
      · simp only [regRemove, if_pos hq]
        exact h.2
      · simp only [regRemove, if_neg hq]
        exact registryInv_cons.mpr ⟨h.1, ih h.2⟩

theorem recordOK_of_regGet {r : Registry} {p : String} {d : BluetoothDevice}
    (h : registryInv r) (hget : regGet r p = some d) : recordOK d = true := by
  induction r with
  | nil => simp [regGet] at hget
  | cons ed rest ih =>
      obtain ⟨q, dev⟩ := ed
      rw [registryInv_cons] at h
      by_cases hq : q = p
      · simp only [regGet, if_pos hq, Option.some.injEq] at hget
        subst hget
        exact h.1
      · simp only [regGet, if_neg hq] at hget
        exact ih h.2 hget

theorem regRemove_regSet {r : Registry} {p : String} {x : BluetoothDevice}
    (d : BluetoothDevice) (h : regGet r p = some x) :
    regRemove (regSet r p d) p = regRemove r p := by
  induction r with
  | nil => simp [regGet] at h
  | cons ed rest ih =>
      obtain ⟨q, dev⟩ := ed
      by_cases hq : q = p
      · simp only [regSet, if_pos hq, regRemove, if_pos hq]
      · simp only [regGet, if_neg hq] at h
        simp only [regSet, if_neg hq, regRemove, if_neg hq, ih h]

theorem regSet_append {r : Registry} {p : String} (d : BluetoothDevice)
    (h : regGet r p = none) : regSet r p d = r ++ [(p, d)] := by
  induction r with
  | nil => simp [regSet]
  | cons ed rest ih =>
      obtain ⟨q, dev⟩ := ed
      by_cases hq : q = p
      · simp [regGet, hq] at h
      · simp only [regGet, if_neg hq] at h
        simp only [regSet, if_neg hq, ih h, List.cons_append]

/-! ### Invariant preservation of the handlers -/

theorem device1Step_inv {reg : Registry} (object_path_value : DBusValue)
    {entries : List (String × DBusValue)}
    (h : registryInv reg) (hn : entriesNameOk entries = true) :
    registryInv (device1Step reg object_path_value entries) := by
  unfold device1Step
  split
  · rename_i device1 heq
    have hn' : (parseDevice1Name device1).isSome = true := by
      unfold entriesNameOk at hn
      rw [heq] at hn
      exact hn
    split
    · split
      · exact registryInv_regSet _ h (by simp [recordOK, hn'])
      · exact registryInv_regSet _ h (by simp [recordOK, hn'])
    · exact h
  · exact h

theorem mediaAddedStep_inv {reg : Registry} (object_path_value : DBusValue)
    (entries : List (String × DBusValue)) (h : registryInv reg) :
    registryInv (mediaAddedStep reg object_path_value entries) := by
  unfold mediaAddedStep
  split
  · split
    · split
      · exact registryInv_regSet _ h (by simp [recordOK])
      · exact registryInv_regSet _ h (by simp [recordOK])
    · exact h
  · exact h

theorem batteryAddedReg_inv {reg : Registry} (object_path : String)
    (battery_interface_value : DBusValue) (h : registryInv reg) :
    registryInv (batteryAddedReg reg object_path battery_interface_value) := by
  unfold batteryAddedReg
  split
  · exact registryInv_regSet _ h (by simp [recordOK])
  · exact registryInv_regSet _ h (by simp [recordOK])

theorem batteryAddedStep_inv {reg : Registry} (object_path_value : DBusValue)
    (entries : List (String × DBusValue)) (h : registryInv reg) :
    registryInv (batteryAddedStep reg object_path_value entries).fst := by
  unfold batteryAddedStep
  split
  · exact h
  · split
    · exact batteryAddedReg_inv _ _ h
    · exact h

theorem handleInterfacesAdded_inv {reg : Registry} {body : Option (List DBusValue)}
    (h : registryInv reg) (hb : bodyNameOk body = true) :
    registryInv (handleInterfacesAdded reg body).fst := by
  unfold handleInterfacesAdded
  split
  · rename_i object_path_value entries
    have hn : entriesNameOk entries = true := hb
    exact batteryAddedStep_inv _ _ (mediaAddedStep_inv _ _ (device1Step_inv _ h hn))
  · exact h

theorem batteryChangedReg_inv {reg : Registry} (path : String)
    (changed_properties_val : DBusValue) (h : registryInv reg) :
    registryInv (batteryChangedReg reg path changed_properties_val) := by
  unfold batteryChangedReg
  split
  · rename_i device hdev
    have hOK : recordOK device = true := recordOK_of_regGet h hdev
    exact registryInv_regSet _ h hOK
  · exact registryInv_regSet _ h (by simp [recordOK])

theorem mediaChangedStep_inv {reg : Registry} (path : String) (h : registryInv reg) :
    registryInv (mediaChangedStep reg path) := by
  unfold mediaChangedStep
  split
  · exact registryInv_regSet _ h (by simp [recordOK])
  · exact registryInv_regSet _ h (by simp [recordOK])

theorem handlePropertiesChanged_inv {reg : Registry} (path : String)
    (body : Option (List DBusValue)) (h : registryInv reg) :
    registryInv (handlePropertiesChanged reg path body).fst := by
  unfold handlePropertiesChanged
  split
  · split
    · exact h
    · unfold batteryChangedStep
      split
      · exact batteryChangedReg_inv _ _ h
      · exact h
    · exact mediaChangedStep_inv _ h
    · exact h
  · exact h

theorem clearGC_inv {reg : Registry} (object_path : String)
    (clear : BluetoothDevice → BluetoothDevice) (h : registryInv reg) :
    registryInv (clearGC reg object_path clear) := by
  unfold clearGC
  split
  · rename_i device hdev
    split
    · rw [regRemove_regSet _ hdev]
      exact registryInv_regRemove _ h
    · rename_i hcond
      apply registryInv_regSet _ h
      revert hcond
      cases hm : (clear device).has_media <;>
        cases hb2 : (clear device).has_battery <;>
        cases hnm : (clear device).device_name <;>
        simp_all [recordOK]
  · exact h

theorem removeIfaceStep_inv {reg : Registry} (object_path : String) (iface : DBusValue)
    (h : registryInv reg) : registryInv (removeIfaceStep reg object_path iface) := by
  unfold removeIfaceStep
  split
  · split
    · exact clearGC_inv _ _ h
    · exact clearGC_inv _ _ h
    · exact clearGC_inv _ _ h
    · exact h
  · exact h

theorem removedReg_inv (interfaces : List DBusValue) :
    ∀ (reg : Registry) (object_path : String), registryInv reg →
      registryInv (removedReg reg object_path interfaces) := by
  induction interfaces with
  | nil =>
      intro reg object_path h
      exact h
  | cons i rest ih =>
      intro reg object_path h
      have := ih (removeIfaceStep reg object_path i) object_path
        (removeIfaceStep_inv _ _ h)
      simpa [removedReg, List.foldl_cons] using this

theorem handleInterfacesRemoved_inv {reg : Registry} (body : Option (List DBusValue))
    (h : registryInv reg) : registryInv (handleInterfacesRemoved reg body).fst := by
  unfold handleInterfacesRemoved
  split
  · exact removedReg_inv _ _ _ h
  · exact h

theorem dispatchStep_inv {reg : Registry} (m : RawMessage)
    (h : registryInv reg) (hm : addedDeviceNameOk m = true) :
    registryInv (dispatchStep reg m).fst := by
  obtain ⟨mp, mi, mm, mb⟩ := m
  unfold dispatchStep
  dsimp only
  split
  · split
    · exact handleInterfacesAdded_inv h hm
    · exact handlePropertiesChanged_inv _ _ h
    · exact handleInterfacesRemoved_inv _ h
    · exact h
  · exact h

/-! ### Reduction lemmas for the message constructors -/

theorem dispatchStep_mkInterfacesAdded (reg : Registry) (headerPath objPath : String)
    (entries : List (String × DBusValue)) :
    dispatchStep reg (mkInterfacesAdded headerPath objPath entries)
      = handleInterfacesAdded reg (some [.objectPath objPath, .dict entries]) := rfl

theorem dispatchStep_mkPropertiesChanged (reg : Registry)
    (path interfaceName : String) (changed invalidated : DBusValue) :
    dispatchStep reg (mkPropertiesChanged path interfaceName changed invalidated)
      = handlePropertiesChanged reg path (some [.str interfaceName, changed, invalidated]) := rfl

theorem dispatchStep_mkInterfacesRemoved (reg : Registry) (headerPath objPath : String)
    (interfaces : List DBusValue) :
    dispatchStep reg (mkInterfacesRemoved headerPath objPath interfaces)
      = handleInterfacesRemoved reg (some [.objectPath objPath, .array interfaces]) := rfl

theorem handleInterfacesAdded_some (reg : Registry) (object_path_value : DBusValue)
    (entries : List (String × DBusValue)) :
    handleInterfacesAdded reg (some [object_path_value, .dict entries])
      = batteryAddedStep
          (mediaAddedStep (device1Step reg object_path_value entries) object_path_value entries)
          object_path_value entries := rfl

theorem handlePropertiesChanged_upower (reg : Registry) (path : String)
    (changed invalidated : DBusValue) :
    handlePropertiesChanged reg path
        (some [.str "org.freedesktop.UPower.Device", changed, invalidated])
      = (reg, upowerChangedStep changed) := rfl

theorem handlePropertiesChanged_btBattery (reg : Registry) (path : String)
    (changed invalidated : DBusValue) :
    handlePropertiesChanged reg path
        (some [.str "org.bluez.Battery1", changed, invalidated])
      = batteryChangedStep reg path changed := rfl

theorem handlePropertiesChanged_btMedia (reg : Registry) (path : String)
    (changed invalidated : DBusValue) :
    handlePropertiesChanged reg path
        (some [.str "org.bluez.MediaControl1", changed, invalidated])
      = (mediaChangedStep reg path, []) := rfl

theorem handleInterfacesRemoved_some (reg : Registry) (objPath : String)
    (interfaces : List DBusValue) :
    handleInterfacesRemoved reg (some [.objectPath objPath, .array interfaces])
      = emitBT (removedReg reg objPath interfaces) := rfl

theorem device1Step_nonpath {reg : Registry} {object_path_value : DBusValue}
    (entries : List (String × DBusValue))
    (h : ∀ p, object_path_value ≠ .objectPath p) :
    device1Step reg object_path_value entries = reg := by
  unfold device1Step
  split
  · split
    · rename_i object_path
      exact absurd rfl (h object_path)
    · rfl
  · rfl

theorem mediaAddedStep_nonpath {reg : Registry} {object_path_value : DBusValue}
    (entries : List (String × DBusValue))
    (h : ∀ p, object_path_value ≠ .objectPath p) :
    mediaAddedStep reg object_path_value entries = reg := by
  unfold mediaAddedStep
  split
  · split
    · rename_i object_path
      exact absurd rfl (h object_path)
    · rfl
  · rfl

theorem batteryAddedStep_nonpath {reg : Registry} {object_path_value : DBusValue}
    (entries : List (String × DBusValue))
    (h : ∀ p, object_path_value ≠ .objectPath p) :
    batteryAddedStep reg object_path_value entries = (reg, []) := by
  unfold batteryAddedStep
  split
  · rfl
  · split
    · rename_i object_path
      exact absurd rfl (h object_path)
    · rfl

/-! ### C1 -/

/-- C1 counterexample: the claim fails as stated.  Starting from the empty
(valid) registry, a single InterfacesAdded carrying a Device1 dictionary with
no Name property creates a record with hasBattery and hasMedia false and no
name, so a record with all three facts false/absent exists after a sequence
of operations on an initially valid registry. -/
theorem c1_invariant_counterexample :
    registryInv ([] : Registry) ∧ ¬ registryInv (applyMsgs [] [msgDeviceNoName]) := by
  constructor
  · decide
  · decide

/-- C1 (amended): for every sequence of registry operations applied to an
initially valid registry, in which every Interface-Added that carries the
device-info interface as a property dictionary carries a string-typed Name
entry, every record present in the registry afterwards satisfies
hasBattery || hasMedia || name.isPresent(). -/
theorem c1_registry_invariant (msgs : List RawMessage) :
    ∀ (reg : Registry), registryInv reg →
      (∀ m ∈ msgs, addedDeviceNameOk m = true) →
      registryInv (applyMsgs reg msgs) := by
  induction msgs with
  | nil =>
      intro reg h _
      exact h
  | cons m rest ih =>
      intro reg h hall
      have h1 : registryInv (dispatchStep reg m).fst :=
        dispatchStep_inv m h (hall m (by simp))
      have h2 := ih (dispatchStep reg m).fst h1
        (fun x hx => hall x (by simp [hx]))
      simpa [applyMsgs, List.foldl_cons] using h2

/-- C1 witness: the amended invariant applied to the concrete Scenario B
message on the empty registry. -/
theorem c1_registry_invariant_witness :
    registryInv ([] : Registry)
      ∧ (∀ m ∈ [msgScenarioB], addedDeviceNameOk m = true)
      ∧ registryInv (applyMsgs [] [msgScenarioB]) :=
  ⟨by decide, by decide,
    c1_registry_invariant [msgScenarioB] [] (by decide) (by decide)⟩

/-! ### C2 -/

theorem batteryAddedReg_pct (reg : Registry) (object_path : String) (v : DBusValue) :
    (regGet (batteryAddedReg reg object_path v) object_path).isSome = true
      ∧ (regGet (batteryAddedReg reg object_path v) object_path).bind
          BluetoothDevice.battery_percentage
        = process_bluetooth_battery_interface v := by
  unfold batteryAddedReg
  split
  · constructor
    · rw [regGet_regSet_self]
      rfl
    · rw [regGet_regSet_self]
      rfl
  · constructor
    · rw [regGet_regSet_self]
      rfl
    · rw [regGet_regSet_self]
      rfl

/-- C2 counterexample: the claim fails as stated.  A record known with
percentage 80 receives an Interface-Added whose Battery1 dictionary has no
Percentage property; the previously known batteryPercentage is erased. -/
theorem c2_missing_percentage_counterexample :
    regGet regScenarioB "/d1" = some ⟨"/d1", true, false, some 80, some "Pixel Buds"⟩
      ∧ regGet (dispatchStep regScenarioB msgBatteryNoPct).fst "/d1"
          = some ⟨"/d1", true, false, none, some "Pixel Buds"⟩ := by
  constructor
  · decide
  · decide

/-- C2 (amended): for every Interface-Added whose interface map contains the
battery interface as a dictionary carrying no Percentage property, after the
operation the record at the object path exists and its batteryPercentage is
absent; a newly created record has it absent, and a previously known
batteryPercentage on an existing record is erased (overwritten with absent)
rather than kept. -/
theorem c2_battery_added_without_percentage (reg : Registry)
    (headerPath objPath : String) (entries bat : List (String × DBusValue))
    (hb : dictGet entries "org.bluez.Battery1" = some (.dict bat))
    (hp : dictGet bat "Percentage" = none) :
    (regGet (dispatchStep reg (mkInterfacesAdded headerPath objPath entries)).fst
        objPath).isSome = true
      ∧ (regGet (dispatchStep reg (mkInterfacesAdded headerPath objPath entries)).fst
          objPath).bind BluetoothDevice.battery_percentage = none := by
  rw [dispatchStep_mkInterfacesAdded, handleInterfacesAdded_some]
  unfold batteryAddedStep
  rw [hb]
  have h := batteryAddedReg_pct
    (mediaAddedStep (device1Step reg (.objectPath objPath) entries)
      (.objectPath objPath) entries) objPath (.dict bat)
  have hpr : process_bluetooth_battery_interface (.dict bat) = none := by
    simp only [process_bluetooth_battery_interface]
    rw [hp]
  rw [hpr] at h
  exact ⟨h.1, h.2⟩

/-- C2 witness: the amended statement on the Scenario B registry, with a
Battery1 dictionary carrying no Percentage property. -/
theorem c2_battery_added_without_percentage_witness :
    (regGet (dispatchStep regScenarioB (mkInterfacesAdded "/" "/d1"
        [("org.bluez.Battery1", DBusValue.dict [])])).fst "/d1").isSome = true
      ∧ (regGet (dispatchStep regScenarioB (mkInterfacesAdded "/" "/d1"
          [("org.bluez.Battery1", DBusValue.dict [])])).fst "/d1").bind
          BluetoothDevice.battery_percentage = none :=
  c2_battery_added_without_percentage regScenarioB "/" "/d1"
    [("org.bluez.Battery1", DBusValue.dict [])] [] rfl rfl

/-! ### C3 -/

/-- C3 counterexample: the claim fails as stated.  An InterfacesAdded
carrying only the MediaControl1 interface successfully mutates the registry
(a record is created with hasMedia true) yet nothing is pushed to the output
sink in that step. -/
theorem c3_media_only_counterexample :
    (dispatchStep [] msgMediaOnly).fst = [("/d1", ⟨"/d1", false, true, none, none⟩)]
      ∧ (dispatchStep [] msgMediaOnly).snd = [] := by
  constructor
  · decide
  · decide

theorem upowerChangedStep_no_bt (changed : DBusValue) (t : String) :
    Emission.bluetooth t ∉ upowerChangedStep changed := by
  unfold upowerChangedStep
  split
  · split
    · split
      · simp
      · simp
    · simp
  · simp

theorem handleInterfacesAdded_emits (reg : Registry) (op : String)
    (entries : List (String × DBusValue))
    (hv : (dictGet entries "org.bluez.Battery1").isSome = true) :
    (handleInterfacesAdded reg (some [.objectPath op, .dict entries])).snd
      = [Emission.bluetooth (compute_bluetooth_display_string
          (handleInterfacesAdded reg (some [.objectPath op, .dict entries])).fst)] := by
  rw [handleInterfacesAdded_some]
  cases hd : dictGet entries "org.bluez.Battery1" with
  | none =>
      rw [hd] at hv
      exact Bool.noConfusion hv
  | some v =>
      unfold batteryAddedStep
      rw [hd]
      rfl

/-- C3 (amended): the Bluetooth display string is re-derived from the
updated registry and pushed in the same step exactly for the three emitting
message kinds: an Interface-Added whose map contains the battery interface
(at an object-path-typed path field), a Properties-Changed on the Bluetooth
battery interface with dictionary-shaped changed properties, and any
Interfaces-Removed passing the parse guards; every other message pushes no
Bluetooth string.  In particular mutations that only set name or hasMedia
push nothing: an Interface-Added without the battery interface and a
MediaControl1 property change emit nothing at all. -/
theorem c3_bluetooth_emission :
    (∀ (reg : Registry) (m : RawMessage), btEmissionTrigger m = true →
      (dispatchStep reg m).snd
        = [Emission.bluetooth (compute_bluetooth_display_string (dispatchStep reg m).fst)])
    ∧ (∀ (reg : Registry) (m : RawMessage), btEmissionTrigger m = false →
      ∀ t, Emission.bluetooth t ∉ (dispatchStep reg m).snd)
    ∧ (∀ (reg : Registry) (headerPath objPath : String)
          (entries : List (String × DBusValue)),
      dictGet entries "org.bluez.Battery1" = none →
      (dispatchStep reg (mkInterfacesAdded headerPath objPath entries)).snd = [])
    ∧ (∀ (reg : Registry) (path : String) (changed invalidated : DBusValue),
      (dispatchStep reg (mkPropertiesChanged path "org.bluez.MediaControl1"
          changed invalidated)).snd = []) := by
  refine ⟨?_, ?_, ?_, ?_⟩
  · intro reg m htr
    obtain ⟨mp, mi, mm, mb⟩ := m
    unfold btEmissionTrigger at htr
    dsimp only at htr
    split at htr
    · split at htr
      · -- InterfacesAdded
        split at htr
        · rename_i op entries
          exact handleInterfacesAdded_emits reg op entries htr
        · exact Bool.noConfusion htr
      · -- PropertiesChanged
        split at htr
        · rename_i cp invd
          rfl
        · exact Bool.noConfusion htr
      · -- InterfacesRemoved
        split at htr
        · rename_i op interfaces
          rfl
        · exact Bool.noConfusion htr
      · exact Bool.noConfusion htr
    · exact Bool.noConfusion htr
  · intro reg m htr t
    obtain ⟨mp, mi, mm, mb⟩ := m
    unfold btEmissionTrigger at htr
    unfold dispatchStep
    dsimp only at htr ⊢
    split
    · split
      · -- InterfacesAdded
        unfold handleInterfacesAdded
        split
        · rename_i opv entries
          cases opv
          case objectPath op =>
            have hno : (dictGet entries "org.bluez.Battery1").isSome = false := htr
            cases hd : dictGet entries "org.bluez.Battery1" with
            | none =>
                unfold batteryAddedStep
                rw [hd]
                exact List.not_mem_nil _
            | some v =>
                rw [hd] at hno
                exact Bool.noConfusion hno
          all_goals
            rw [batteryAddedStep_nonpath entries (fun p hp => DBusValue.noConfusion hp)]
          all_goals exact List.not_mem_nil _
        · exact List.not_mem_nil _
      · -- PropertiesChanged
        unfold handlePropertiesChanged
        split
        · rename_i iname changed invd
          split
          · exact upowerChangedStep_no_bt changed t
          · cases changed
            case dict cps => exact Bool.noConfusion (htr : true = false)
            all_goals exact List.not_mem_nil _
          · exact List.not_mem_nil _
          · exact List.not_mem_nil _
        · exact List.not_mem_nil _
      · -- InterfacesRemoved
        unfold handleInterfacesRemoved
        split
        · exact Bool.noConfusion (htr : true = false)
        · exact List.not_mem_nil _
      · exact List.not_mem_nil _
    · exact List.not_mem_nil _
  · intro reg headerPath objPath entries h
    rw [dispatchStep_mkInterfacesAdded, handleInterfacesAdded_some]
    unfold batteryAddedStep
    rw [h]
  · intro reg path changed invalidated
    rw [dispatchStep_mkPropertiesChanged, handlePropertiesChanged_btMedia]

/-- C3 witness: the emitting Battery1 add of Scenario B pushes the derived
display string in the same step, while the media-only add mutates the
registry without any Bluetooth emission. -/
theorem c3_bluetooth_emission_witness :
    btEmissionTrigger msgScenarioB = true
      ∧ (dispatchStep [] msgScenarioB).snd
          = [Emission.bluetooth (compute_bluetooth_display_string
              (dispatchStep [] msgScenarioB).fst)]
      ∧ btEmissionTrigger msgMediaOnly = false
      ∧ Emission.bluetooth "No BT" ∉ (dispatchStep [] msgMediaOnly).snd :=
  ⟨by decide, c3_bluetooth_emission.1 [] msgScenarioB (by decide), by decide,
    c3_bluetooth_emission.2.1 [] msgMediaOnly (by decide) "No BT"⟩

/-! ### C4 -/

/-- C4 counterexample: the claim fails as stated.  An InterfacesAdded whose
Battery1 interface value has the wrong shape (a string where a property
dictionary is expected, a parse failure the code itself logs) is not
discarded: it creates a battery record and pushes a display string. -/
theorem c4_wrong_shape_counterexample :
    (dispatchStep [] msgBadBatteryShape).fst = [("/d1", ⟨"/d1", true, false, none, none⟩)]
      ∧ (dispatchStep [] msgBadBatteryShape).snd = [Emission.bluetooth "No BT"] := by
  constructor
  · decide
  · decide

/-- C4 (amended): every message failing the top-level parse guards of the
dispatch loop (missing header field, body that fails structure
deserialization, wrong field count, or a wrong-typed top-level field of a
recognized signal) is discarded: the registry is unchanged, nothing is
emitted, and the loop continues.  A wrong shape nested inside an interface
property map may still mutate the registry and emit. -/
theorem c4_malformed_discarded (reg : Registry) (m : RawMessage)
    (hm : malformedTopLevel m = true) : dispatchStep reg m = (reg, []) := by
  obtain ⟨mp, mi, mm, mb⟩ := m
  unfold malformedTopLevel at hm
  unfold dispatchStep
  dsimp only at hm ⊢
  split
  · split
    · -- InterfacesAdded
      unfold handleInterfacesAdded
      split
      · rename_i object_path_value entries
        have hnp : ∀ p, object_path_value ≠ DBusValue.objectPath p := by
          intro p hp
          rw [hp] at hm
          exact Bool.noConfusion (hm : false = true)
        rw [device1Step_nonpath entries hnp, mediaAddedStep_nonpath entries hnp]
        exact batteryAddedStep_nonpath entries hnp
      · rfl
    · -- PropertiesChanged
      unfold handlePropertiesChanged
      split
      · rename_i interface_names changed invalidated
        split
        · -- UPower.Device
          unfold upowerChangedStep
          split
          · exact Bool.noConfusion (hm : false = true)
          · rfl
        · -- Battery1
          unfold batteryChangedStep
          split
          · exact Bool.noConfusion (hm : false = true)
          · rfl
        · -- MediaControl1
          exact Bool.noConfusion (hm : false = true)
        · rfl
      · rfl
    · -- InterfacesRemoved
      unfold handleInterfacesRemoved
      split
      · exact Bool.noConfusion (hm : false = true)
      · rfl
    · rfl
  · rfl

/-- C4 witness: a message whose body fails to deserialize is discarded with
the registry unchanged and nothing emitted. -/
theorem c4_malformed_discarded_witness :
    malformedTopLevel msgNoBody = true
      ∧ dispatchStep regScenarioB msgNoBody = (regScenarioB, []) :=
  ⟨by decide, c4_malformed_discarded regScenarioB msgNoBody (by decide)⟩

/-! ### C5 -/

/-- C5: applying an Interface-Added whose map contains only the
media-control interface to a record that already has a name and battery
information sets hasMedia true and leaves name, hasBattery and
batteryPercentage exactly as they were. -/
theorem c5_media_only_add_preserves (reg : Registry) (headerPath p : String)
    (v : DBusValue) (d : BluetoothDevice)
    (hd : regGet reg p = some d) (_hname : d.device_name.isSome = true)
    (_hbat : d.has_battery = true) (_hpct : d.battery_percentage.isSome = true) :
    regGet (dispatchStep reg (mkInterfacesAdded headerPath p
        [("org.bluez.MediaControl1", v)])).fst p
      = some { d with has_media := true } := by
  have h1 : device1Step reg (.objectPath p) [("org.bluez.MediaControl1", v)] = reg := rfl
  have h2 : mediaAddedStep reg (.objectPath p) [("org.bluez.MediaControl1", v)]
      = regSet reg p { d with has_media := true } := by
    show (match regGet reg p with
      | some device => regSet reg p { device with has_media := true }
      | none => regSet reg p ⟨p, false, true, none, none⟩) = _
    rw [hd]
  have h3 : batteryAddedStep (regSet reg p { d with has_media := true }) (.objectPath p)
      [("org.bluez.MediaControl1", v)] = (regSet reg p { d with has_media := true }, []) := rfl
  rw [dispatchStep_mkInterfacesAdded, handleInterfacesAdded_some, h1, h2, h3]
  exact regGet_regSet_self reg p { d with has_media := true }

/-- C5 witness: the media-only add on the Scenario B registry keeps the name
Pixel Buds, hasBattery and percentage 80 while setting hasMedia. -/
theorem c5_media_only_add_preserves_witness :
    regGet (dispatchStep regScenarioB (mkInterfacesAdded "/" "/d1"
        [("org.bluez.MediaControl1", DBusValue.dict [])])).fst "/d1"
      = some ⟨"/d1", true, true, some 80, some "Pixel Buds"⟩ :=
  c5_media_only_add_preserves regScenarioB "/" "/d1" (DBusValue.dict [])
    ⟨"/d1", true, false, some 80, some "Pixel Buds"⟩ rfl rfl rfl rfl

/-! ### C6 -/

/-- C6: Scenario B.  From the empty registry, the Interface-Added at /d1
with Device1 name Pixel Buds and Battery1 percentage 80 yields exactly one
record with hasBattery true, batteryPercentage 80 and name Pixel Buds, and
the Bluetooth display derivation on that registry returns P80. -/
theorem c6_scenarioB :
    (dispatchStep [] msgScenarioB).fst
        = [("/d1", ⟨"/d1", true, false, some 80, some "Pixel Buds"⟩)]
      ∧ compute_bluetooth_display_string (dispatchStep [] msgScenarioB).fst = "P80" := by
  constructor
  · decide
  · decide

/-! ### C7 -/

/-- C7: Scenarios C and D.  From the Scenario B state, removing only the
battery interface clears hasBattery and batteryPercentage but keeps the
record with its name, and the display derivation returns No BT; a further
removal of the device-info interface removes the record entirely. -/
theorem c7_scenarioC_scenarioD :
    dispatchStep regScenarioB msgScenarioC
        = ([("/d1", ⟨"/d1", false, false, none, some "Pixel Buds"⟩)],
            [Emission.bluetooth "No BT"])
      ∧ dispatchStep regScenarioC msgScenarioD = ([], [Emission.bluetooth "No BT"]) := by
  constructor
  · decide
  · decide

/-! ### C8 -/

/-- C8: a Properties-Changed on the system-battery interface whose changed
set carries percentage 47 emits exactly the glyph-prefixed text 47 percent
and leaves the registry alone; a subsequent Properties-Changed on that
interface with no Percentage entry emits nothing, so the displayed battery
text stays at the 47 value. -/
theorem c8_system_battery (reg : Registry) (path : String)
    (cp cp2 : List (String × DBusValue)) (invd invd2 : DBusValue)
    (h47 : dictGet cp "Percentage" = some (.f64 47))
    (hnone : dictGet cp2 "Percentage" = none) :
    dispatchStep reg (mkPropertiesChanged path "org.freedesktop.UPower.Device"
        (.dict cp) invd)
      = (reg, [Emission.battery "🔋 47%"])
    ∧ dispatchStep reg (mkPropertiesChanged path "org.freedesktop.UPower.Device"
        (.dict cp2) invd2)
      = (reg, [])
    ∧ lastBatteryText (some "🔋 47%")
        (dispatchStep reg (mkPropertiesChanged path "org.freedesktop.UPower.Device"
          (.dict cp2) invd2)).snd
      = some "🔋 47%" := by
  have e1 : upowerChangedStep (.dict cp) = [Emission.battery "🔋 47%"] := by
    simp only [upowerChangedStep]
    rw [h47]
    rfl
  have e2 : upowerChangedStep (.dict cp2) = [] := by
    simp only [upowerChangedStep]
    rw [hnone]
  refine ⟨?_, ?_, ?_⟩
  · rw [dispatchStep_mkPropertiesChanged, handlePropertiesChanged_upower, e1]
  · rw [dispatchStep_mkPropertiesChanged, handlePropertiesChanged_upower, e2]
  · rw [dispatchStep_mkPropertiesChanged, handlePropertiesChanged_upower]
    rw [show (reg, upowerChangedStep (.dict cp2)).snd = upowerChangedStep (.dict cp2) from rfl]
    rw [e2]
    rfl

/-- C8 witness: the two concrete changed-property sets, one carrying
percentage 47 and one carrying only a State change. -/
theorem c8_system_battery_witness :
    dispatchStep [] (mkPropertiesChanged "/org/freedesktop/UPower/devices/battery_BAT0"
        "org.freedesktop.UPower.Device"
        (DBusValue.dict [("Percentage", DBusValue.f64 47)]) (DBusValue.array []))
      = ([], [Emission.battery "🔋 47%"])
    ∧ dispatchStep [] (mkPropertiesChanged "/org/freedesktop/UPower/devices/battery_BAT0"
        "org.freedesktop.UPower.Device"
        (DBusValue.dict [("State", DBusValue.u32 2)]) (DBusValue.array []))
      = ([], [])
    ∧ lastBatteryText (some "🔋 47%")
        (dispatchStep [] (mkPropertiesChanged "/org/freedesktop/UPower/devices/battery_BAT0"
          "org.freedesktop.UPower.Device"
          (DBusValue.dict [("State", DBusValue.u32 2)]) (DBusValue.array []))).snd
      = some "🔋 47%" :=
  c8_system_battery [] "/org/freedesktop/UPower/devices/battery_BAT0"
    [("Percentage", DBusValue.f64 47)] [("State", DBusValue.u32 2)]
    (DBusValue.array []) (DBusValue.array []) rfl rfl

/-! ### C9 -/

/-- C9: a Properties-Changed on the Bluetooth battery interface at a path
absent from the registry, carrying percentage 60, defensively creates a
record there with hasBattery true and batteryPercentage 60, pushes the
display string derived from the updated registry in the same step, and that
string's token list contains the token D60 of the new record. -/
theorem c9_defensive_insert (reg : Registry) (p : String)
    (cp : List (String × DBusValue)) (invd : DBusValue)
    (habs : regGet reg p = none)
    (hpct : dictGet cp "Percentage" = some (.u8 60)) :
    regGet (dispatchStep reg (mkPropertiesChanged p "org.bluez.Battery1"
        (.dict cp) invd)).fst p
      = some ⟨p, true, false, some 60, none⟩
    ∧ "D60" ∈ bluetoothTokens (dispatchStep reg (mkPropertiesChanged p "org.bluez.Battery1"
        (.dict cp) invd)).fst
    ∧ (dispatchStep reg (mkPropertiesChanged p "org.bluez.Battery1" (.dict cp) invd)).snd
      = [Emission.bluetooth (compute_bluetooth_display_string
          (dispatchStep reg (mkPropertiesChanged p "org.bluez.Battery1"
            (.dict cp) invd)).fst)] := by
  have hp : process_bluetooth_battery_interface (.dict cp) = some 60 := by
    simp only [process_bluetooth_battery_interface]
    rw [hpct]
    rfl
  have hreg : (dispatchStep reg (mkPropertiesChanged p "org.bluez.Battery1"
      (.dict cp) invd)).fst = regSet reg p ⟨p, true, false, some 60, none⟩ := by
    rw [dispatchStep_mkPropertiesChanged, handlePropertiesChanged_btBattery]
    show batteryChangedReg reg p (.dict cp) = _
    unfold batteryChangedReg
    rw [habs, hp]
  have htok : deviceToken ⟨p, true, false, some 60, none⟩ = some "D60" := rfl
  refine ⟨?_, ?_, ?_⟩
  · rw [hreg]
    exact regGet_regSet_self reg p ⟨p, true, false, some 60, none⟩
  · rw [hreg, regSet_append _ habs]
    unfold bluetoothTokens
    rw [List.filterMap_append]
    apply List.mem_append_right
    simp [htok]
  · rw [dispatchStep_mkPropertiesChanged, handlePropertiesChanged_btBattery]
    rfl

/-- C9 witness: the unknown path /d9 with percentage 60 on the empty
registry. -/
theorem c9_defensive_insert_witness :
    regGet (dispatchStep [] (mkPropertiesChanged "/d9" "org.bluez.Battery1"
        (DBusValue.dict [("Percentage", DBusValue.u8 60)]) (DBusValue.array []))).fst "/d9"
      = some ⟨"/d9", true, false, some 60, none⟩
    ∧ "D60" ∈ bluetoothTokens (dispatchStep [] (mkPropertiesChanged "/d9" "org.bluez.Battery1"
        (DBusValue.dict [("Percentage", DBusValue.u8 60)]) (DBusValue.array []))).fst
    ∧ (dispatchStep [] (mkPropertiesChanged "/d9" "org.bluez.Battery1"
        (DBusValue.dict [("Percentage", DBusValue.u8 60)]) (DBusValue.array []))).snd
      = [Emission.bluetooth (compute_bluetooth_display_string
          (dispatchStep [] (mkPropertiesChanged "/d9" "org.bluez.Battery1"
            (DBusValue.dict [("Percentage", DBusValue.u8 60)]) (DBusValue.array []))).fst)] :=
  c9_defensive_insert [] "/d9" [("Percentage", DBusValue.u8 60)] (DBusValue.array [])
    rfl rfl

/-! ### C10 -/

/-- C10: a Properties-Changed on the Bluetooth battery interface at a path
already present assigns only batteryPercentage on that record, leaving
hasBattery (in particular not setting it true), hasMedia and name untouched
and every other record unchanged; and the display derivation selects records
by batteryPercentage presence alone, ignoring hasBattery. -/
theorem c10_existing_battery_change_frame (reg : Registry) (p : String)
    (d : BluetoothDevice) (cp : List (String × DBusValue)) (invd : DBusValue)
    (hd : regGet reg p = some d) :
    (dispatchStep reg (mkPropertiesChanged p "org.bluez.Battery1" (.dict cp) invd)).fst
        = regSet reg p
            { d with battery_percentage := process_bluetooth_battery_interface (.dict cp) }
      ∧ (∀ dev : BluetoothDevice, (deviceToken dev).isSome = dev.battery_percentage.isSome) := by
  constructor
  · rw [dispatchStep_mkPropertiesChanged, handlePropertiesChanged_btBattery]
    show batteryChangedReg reg p (.dict cp) = _
    unfold batteryChangedReg
    rw [hd]
  · intro dev
    cases hbp : dev.battery_percentage <;> simp [deviceToken, hbp]

/-- C10 witness: a percentage change to 55 at the known path /d1 of the
Scenario B registry rewrites only batteryPercentage. -/
theorem c10_existing_battery_change_frame_witness :
    (dispatchStep regScenarioB (mkPropertiesChanged "/d1" "org.bluez.Battery1"
        (DBusValue.dict [("Percentage", DBusValue.u8 55)]) (DBusValue.array []))).fst
        = regSet regScenarioB "/d1"
            { (⟨"/d1", true, false, some 80, some "Pixel Buds"⟩ : BluetoothDevice) with
                battery_percentage := process_bluetooth_battery_interface
                  (DBusValue.dict [("Percentage", DBusValue.u8 55)]) }
      ∧ (∀ dev : BluetoothDevice, (deviceToken dev).isSome = dev.battery_percentage.isSome) :=
  c10_existing_battery_change_frame regScenarioB "/d1"
    ⟨"/d1", true, false, some 80, some "Pixel Buds"⟩
    [("Percentage", DBusValue.u8 55)] (DBusValue.array []) rfl
